import Mathlib

/-! Verification development for the water-sampling robot program (src/main.py).

The program sweeps a rectangular water surface in parallel columns and classifies
samples against a table of substance profiles. This file shallowly embeds:

* the substance table and the sample-classification scan (`analyze_sample`),
* the coverage bookkeeping (`check_column_status`, `begin_new_column`),
* the timed drive cycle (`main`), with hardware effects recorded as a command trace,
* the top-level program loop entry (`program_loop_starts`, `program_loop_iter`).

Hardware reads (touch sensor, driven distance, color sensors) are supplied as
explicit inputs; hardware commands (DriveBase, StopWatch, EV3 brick feedback) are
recorded as a list of `Cmd` events in issue order. Python integers become `Nat`
(all quantities in the program are non-negative millimetre or percent values) and
the floating-point upper limits become exact rationals; every comparison the
program performs on them is reproduced on those representations. -/

namespace WaterRobot

/-- Commands issued to the hardware collaborators (`db`, `timer`, `ev3`),
recorded as an event trace in the order the program issues them. -/
inductive Cmd where
  | turn (angle : Int)
  | straight (dist : Nat)
  | drive (speed turn_rate : Int)
  | stop
  | timerReset
  | timerPause
  | timerResume
  | dbReset
  | lightOff
  | screenClear
  | emitWarning (name : String)
  deriving DecidableEq, Repr

/-- One entry of the substance table: name, absorption-spectrum signature and
regulatory upper limit. -/
structure Profile where
  name : String
  spectrum : Nat × Nat × Nat
  upper_limit : ℚ
  deriving DecidableEq, Repr

/-- Embedding of `substance_spectrum` (src/main.py lines 37-98): the substance
profiles in registration order (Python dict iteration preserves insertion order,
so `.values()` yields exactly this sequence). -/
def substance_spectrum : List Profile :=
  [ ⟨"acrylamide", (5, 6, 2), mkRat 1 10⟩,
    ⟨"antimony", (40, 25, 34), 5⟩,
    ⟨"arsenic", (40, 40, 40), 10⟩,
    ⟨"benzene", (40, 20, 30), 1⟩,
    ⟨"cadmium", (20, 20, 40), 5⟩,
    ⟨"chromium", (19, 21, 39), 10⟩,
    ⟨"copper", (20, 17, 44), 2⟩,
    ⟨"cyanide", (10, 12, 21), 50⟩,
    ⟨"fluoride", (19, 18, 45), mkRat 3 2⟩,
    ⟨"lead", (20, 18, 44), 10⟩,
    ⟨"mercury", (19, 18, 45), 1⟩,
    ⟨"nickel", (23, 11, 35), 10⟩,
    ⟨"nitrate", (20, 18, 45), 50⟩,
    ⟨"nitrite", (20, 17, 45), mkRat 1 2⟩,
    ⟨"phosphorus", (6, 5, 11), mkRat 1 10⟩ ]

/-- A sensed sample: the right color sensor gives the spectrum triple, the left
one the amount (`analyze_sample`, lines 153-154). -/
structure Sample where
  spectrum : Nat × Nat × Nat
  amount : ℚ
  deriving DecidableEq, Repr

/-- Match test from line 159 of `analyze_sample`: signature equality and amount
at or above the upper limit. -/
def sample_matches (s : Sample) (p : Profile) : Bool :=
  (s.spectrum == p.spectrum) && decide (p.upper_limit ≤ s.amount)

/-- Embedding of `analyze_sample` (lines 151-160): scans the whole table and
calls `emit_warning` for every entry whose spectrum equals the sample spectrum
and whose upper limit is at or below the sample amount. The result is the list
of profile names warned about, in table order; the loop has no early exit. -/
def analyze_sample (s : Sample) : List String :=
  (substance_spectrum.filter (sample_matches s)).map Profile.name

/-- Modelled from the spec (section 4.3): `classify` returns the first profile
whose signature equals the sample signature and whose upper limit is at most
the sample amount, or nothing. Stated here for comparison with the behaviour
of `analyze_sample`. -/
def classify_spec (s : Sample) : Option Profile :=
  substance_spectrum.find? (sample_matches s)

/-- Mutable per-robot state of `WaterSampleRobot` (lines 106-109). -/
structure RobotState where
  col_number : Nat
  pos_x : Nat
  pos_y : Nat
  is_done : Bool
  deriving DecidableEq, Repr

/-- Module-level state flags (lines 28-29). -/
structure Globals where
  is_running : Bool
  is_on : Bool
  deriving DecidableEq, Repr

/-- Robot state as constructed at start-up (lines 106-109, 197). -/
def init_state : RobotState := ⟨1, 0, 0, false⟩

/-- Module initialization of the flags (lines 28-29): running, not yet on. -/
def init_globals : Globals := ⟨true, false⟩

/-- Embedding of `finish_program` (lines 200-208): both flags set to false. -/
def finish_program (_g : Globals) : Globals := ⟨false, false⟩

/-- Embedding of `begin_new_column` (lines 138-148): two 90-degree turns in the
direction selected by the parity of the current column number, bracketing a
straight advance of the robot width, then the column number is incremented.
Positive turn angle is clockwise (source comments, lines 139 and 143). -/
def begin_new_column (width : Nat) (s : RobotState) : RobotState × List Cmd :=
  if s.col_number % 2 = 0 then
    ({ s with col_number := s.col_number + 1 },
      [.turn 90, .straight width, .turn 90])
  else
    ({ s with col_number := s.col_number + 1 },
      [.turn (-90), .straight width, .turn (-90)])

/-- Embedding of `check_column_status` (lines 117-135): only when `pos_y` equals
the surface height exactly (or equals 0) does it add the robot width to `pos_x`
and then either finish (when the new `pos_x` reaches the surface width or the
column count reaches `surface_width / width`) or turn into the next column,
reset the drive base, and zero `pos_y`. For any other `pos_y` value it does
nothing. Returns the new robot state, the new global flags and the commands
issued. -/
def check_column_status (width surface_height surface_width : Nat)
    (s : RobotState) (g : Globals) : RobotState × Globals × List Cmd :=
  if s.pos_y = surface_height ∨ s.pos_y = 0 then
    let s1 : RobotState := { s with pos_x := s.pos_x + width }
    if surface_width ≤ s1.pos_x ∨ s1.col_number = surface_width / width then
      ({ s1 with is_done := true }, finish_program g, [])
    else
      let sc := begin_new_column width s1
      ({ sc.1 with pos_y := 0 }, g, sc.2 ++ [.dbReset])
  else (s, g, [])

/-- Embedding of `is_ts_pressed` (lines 112-115): sets `is_done` when the touch
sensor is pressed while `is_on` is false; the loop then reads the flag. -/
def is_ts_pressed (g : Globals) (pressed : Bool) (s : RobotState) : RobotState :=
  if pressed && !g.is_on then { s with is_done := true } else s

/-- Sensor readings available at one iteration of the drive loop. -/
structure TickInput where
  ts_pressed : Bool
  distance : Nat
  deriving DecidableEq, Repr

/-- How one invocation of `main` ended: early return at a poll, or deadline
expiry followed by classification. -/
inductive CycleResult where
  | aborted
  | completed
  deriving DecidableEq, Repr

/-- Result of one invocation of `main`: final robot state, final global flags,
the command trace, and how the cycle ended. -/
structure CycleOutcome where
  state : RobotState
  globals : Globals
  cmds : List Cmd
  result : CycleResult
  deriving DecidableEq, Repr

/-- Loop body of `main` (lines 175-194). Each `TickInput` is one iteration at
which the while guard `timer.time() < 5000` still held; the empty list is
deadline expiry, at which the program stops, clears the feedback outputs and
classifies the sample. Within an iteration: poll `is_ts_pressed` (stop and
return when it yields true), set `pos_y` from the driven distance, and when
`pos_y` is at or above the surface height pause the timer and run
`check_column_status`; `timer.resume()` runs every iteration (line 188). -/
def main_loop (width surface_height surface_width : Nat) (sample : Sample) :
    List TickInput → RobotState → Globals → CycleOutcome
  | [], s, g =>
      ⟨s, g, [.stop, .lightOff, .screenClear] ++
        (analyze_sample sample).map Cmd.emitWarning, .completed⟩
  | t :: rest, s, g =>
      let s1 := is_ts_pressed g t.ts_pressed s
      if s1.is_done then ⟨s1, g, [.stop], .aborted⟩
      else
        let s2 : RobotState := { s1 with pos_y := t.distance }
        if surface_height ≤ s2.pos_y then
          let c := check_column_status width surface_height surface_width s2 g
          let o := main_loop width surface_height surface_width sample rest c.1 c.2.1
          ⟨o.state, o.globals, .timerPause :: c.2.2 ++ .timerResume :: o.cmds, o.result⟩
        else
          let o := main_loop width surface_height surface_width sample rest s2 g
          ⟨o.state, o.globals, .timerResume :: o.cmds, o.result⟩

/-- Embedding of `main` (lines 170-194): reset the timer and start driving at
the configured speed and turn rate, then run the loop. -/
def main (drive_speed turn_rate : Int) (width surface_height surface_width : Nat)
    (sample : Sample) (ticks : List TickInput) (s : RobotState) (g : Globals) :
    CycleOutcome :=
  let o := main_loop width surface_height surface_width sample ticks s g
  ⟨o.state, o.globals, .timerReset :: .drive drive_speed turn_rate :: o.cmds, o.result⟩

/-- One boundary event of the coverage state machine: `check_column_status`
invoked at a tick where the driven distance equals the surface height exactly,
which is the case in which its boundary handling runs. -/
def boundary_step (width surface_height surface_width : Nat)
    (s : RobotState) : RobotState :=
  (check_column_status width surface_height surface_width
    { s with pos_y := surface_height } ⟨true, true⟩).1

/-- Robot state of the coverage machine after `k` boundary events, starting
from the initial state. -/
def coverage_run (width surface_height surface_width k : Nat) : RobotState :=
  (boundary_step width surface_height surface_width)^[k] init_state

/-- Configuration triple as the spec describes it; integer-valued so that
non-positive dimensions can be stated. -/
structure Config where
  surface_height : Int
  surface_width : Int
  robot_width : Int
  deriving DecidableEq, Repr

/-- Start-up behaviour of the program (lines 27-33 and 196-211): module
initialization sets `is_running := true` and `is_on := false` without
inspecting any configuration value, and the program loop guard is
`is_running`, so the loop is entered whatever the configuration is. -/
def program_loop_starts (_cfg : Config) : Bool := init_globals.is_running

/-- One iteration of the program loop (lines 210-220): a touch press switches
`is_on` on; while `is_on`, a done robot triggers `finish_program`, otherwise
`robot.main` is invoked. The returned Bool records whether `robot.main` was
invoked in this iteration. -/
def program_loop_iter (s : RobotState) (g : Globals) (pressed : Bool) :
    Globals × Bool :=
  if g.is_running then
    let g1 : Globals := if pressed then { g with is_on := true } else g
    if g1.is_on then
      if s.is_done then (finish_program g1, false) else (g1, true)
    else (g1, false)
  else (g, false)

/-- Turn angles occurring in a command trace, in order. -/
def turn_list (l : List Cmd) : List Int :=
  l.filterMap fun c => match c with | .turn a => some a | _ => none

/-- Number of straight lateral advances in a command trace (one per boundary
turn maneuver). -/
def straight_count (l : List Cmd) : Nat :=
  (l.filterMap fun c => match c with | .straight d => some d | _ => none).length

/-- Turn angle selected by `begin_new_column` for a given column number:
positive 90 (clockwise) for an even column, negative 90 (counter-clockwise)
for an odd one. -/
def turn_dir (col_number : Nat) : Int :=
  if col_number % 2 = 0 then 90 else -90

/-- Drive-loop inputs for the idealized demonstration run: four iterations at
each of which the driven distance reads exactly 800, the surface height. -/
def ideal_ticks : List TickInput := List.replicate 4 ⟨false, 800⟩

/-- C7: the copper table entry has signature (20,17,44) and upper limit 2; a
sample with that signature and amount 5/2 makes the classification scan alert
on exactly the copper profile, and the same signature with amount 1 produces no
alert. -/
theorem C7_copper_threshold :
    substance_spectrum[6]? = some ⟨"copper", (20, 17, 44), 2⟩ ∧
    analyze_sample ⟨(20, 17, 44), mkRat 5 2⟩ = ["copper"] ∧
    analyze_sample ⟨(20, 17, 44), 1⟩ = [] := by
  refine ⟨rfl, rfl, rfl⟩

/-- C5 counterexample: fluoride and mercury share the signature (19,18,45); on
a sample with that signature and amount 2 the code alerts on both profiles in
table order, so the alert effect is not exactly the first matching profile as
the claim states (the spec-style first-match classifier would pick fluoride
alone). -/
theorem C5_counterexample_all_matches_alert :
    analyze_sample ⟨(19, 18, 45), 2⟩ = ["fluoride", "mercury"] ∧
    (classify_spec ⟨(19, 18, 45), 2⟩).map Profile.name = some "fluoride" ∧
    analyze_sample ⟨(19, 18, 45), 2⟩ ≠ ["fluoride"] := by
  refine ⟨rfl, rfl, ?_⟩
  intro h
  have h2 : (2 : Nat) = 1 := congrArg List.length h
  exact absurd h2 (by decide)

/-- C3 counterexample: in the idealized run over an 800 by 560 surface with
robot width 140, the six turn commands issued at the three internal boundaries
are [-90, -90, 90, 90, -90, -90] — counter-clockwise first (positive angle is
clockwise per the source comments) — not the clockwise-first sequence
[90, 90, -90, -90, 90, 90] that the claimed directions [CW, CCW, CW] denote. -/
theorem C3_counterexample_first_turn_ccw :
    turn_list (main 110 0 140 800 560 ⟨(0, 0, 0), 0⟩ ideal_ticks init_state
        ⟨true, true⟩).cmds = [-90, -90, 90, 90, -90, -90] ∧
    ([-90, -90, 90, 90, -90, -90] : List Int) ≠ [90, 90, -90, -90, 90, 90] := by
  refine ⟨by decide, by decide⟩

/-- C3 amended: the idealized run over an 800 by 560 surface with robot width
140 sweeps exactly 4 columns, the three internal boundary maneuvers have
directions counter-clockwise, clockwise, counter-clockwise, and the robot is
finished after the fourth column with no fourth maneuver and no fifth column
(three straight advances, final column number 4, done flag set, program flags
cleared). -/
theorem C3_end_to_end_four_columns :
    (main 110 0 140 800 560 ⟨(0, 0, 0), 0⟩ ideal_ticks init_state
        ⟨true, true⟩).state = ⟨4, 560, 800, true⟩ ∧
    turn_list (main 110 0 140 800 560 ⟨(0, 0, 0), 0⟩ ideal_ticks init_state
        ⟨true, true⟩).cmds = [-90, -90, 90, 90, -90, -90] ∧
    straight_count (main 110 0 140 800 560 ⟨(0, 0, 0), 0⟩ ideal_ticks init_state
        ⟨true, true⟩).cmds = 3 ∧
    (main 110 0 140 800 560 ⟨(0, 0, 0), 0⟩ ideal_ticks init_state
        ⟨true, true⟩).globals = ⟨false, false⟩ := by
  refine ⟨by decide, by decide, by decide, by decide⟩

/-- C1: at a drive-loop tick where the driven distance reads 801 on an 800-high
surface — one millimetre of overshoot, so pos_y exceeds the surface height —
`check_column_status` leaves the robot state unchanged and issues no command,
and the whole cycle neither turns nor finishes: the boundary is not handled,
because the inner guard of `check_column_status` tests equality with the
surface height rather than the at-or-above comparison the claim describes. -/
theorem C1_overshoot_not_handled :
    check_column_status 140 800 560 ⟨1, 0, 801, false⟩ ⟨true, true⟩ =
      (⟨1, 0, 801, false⟩, ⟨true, true⟩, []) ∧
    (main 110 0 140 800 560 ⟨(0, 0, 0), 0⟩ [⟨false, 801⟩] init_state
        ⟨true, true⟩).state = ⟨1, 0, 801, false⟩ ∧
    turn_list (main 110 0 140 800 560 ⟨(0, 0, 0), 0⟩ [⟨false, 801⟩] init_state
        ⟨true, true⟩).cmds = [] := by
  refine ⟨by decide, by decide, by decide⟩

/-- C2: with the robot running (is_on true, the only state in which the program
loop invokes `main`) and the touch sensor pressed at the first poll point, the
cycle is not aborted: the guard inside `is_ts_pressed` requires is_on to be
false, so the press is ignored, the cycle runs to its deadline, and the sample
is still classified (here emitting the copper warning). -/
theorem C2_press_ignored_while_on :
    main 110 0 140 800 560 ⟨(20, 17, 44), mkRat 5 2⟩ [⟨true, 0⟩] init_state
        ⟨true, true⟩ =
      ⟨⟨1, 0, 0, false⟩, ⟨true, true⟩,
        [.timerReset, .drive 110 0, .timerResume, .stop, .lightOff, .screenClear,
          .emitWarning "copper"], .completed⟩ := by
  rfl

/-- C9 counterexample: the configuration with robot width 600 on a 560-wide
surface violates the validity condition of the claim, yet start-up performs no
check and the program loop is entered. -/
theorem C9_counterexample_no_rejection :
    (560 : Int) ≤ 600 ∧ program_loop_starts ⟨800, 560, 600⟩ = true := by
  refine ⟨by decide, rfl⟩

/-- C9 amended: no configuration is rejected at start-up. For every
configuration satisfying the invalidity condition of the claim, the program
loop is still entered, and its first iteration with the touch sensor pressed
invokes `robot.main`: the control loop starts regardless of the
configuration. -/
theorem C9_no_startup_validation (cfg : Config)
    (_h : cfg.surface_width ≤ cfg.robot_width ∨ cfg.surface_height ≤ 0 ∨
      cfg.surface_width ≤ 0) :
    program_loop_starts cfg = true ∧
    (program_loop_iter init_state init_globals true).2 = true :=
  ⟨rfl, rfl⟩

/-- C9 witness: the invalid configuration with robot width 600 on a 560-wide
surface is not rejected and the control loop starts. -/
theorem C9_no_startup_validation_witness :
    ((560 : Int) ≤ 600 ∨ (800 : Int) ≤ 0 ∨ (560 : Int) ≤ 0) ∧
    (program_loop_starts ⟨800, 560, 600⟩ = true ∧
      (program_loop_iter init_state init_globals true).2 = true) :=
  ⟨Or.inl (by decide), C9_no_startup_validation ⟨800, 560, 600⟩ (Or.inl (by decide))⟩

/-- Head of the filtered list equals the first element satisfying the
predicate. -/
theorem head_filter_map_eq_find (p : Profile → Bool) (l : List Profile) :
    ((l.filter p).map Profile.name).head? = (l.find? p).map Profile.name := by
  induction l with
  | nil => rfl
  | cons a t ih =>
    by_cases h : p a = true
    · simp [List.filter_cons, List.find?_cons, h]
    · simp only [List.filter_cons, List.find?_cons, h, if_neg]
      simp only [Bool.false_eq_true, if_false, cond_false]
      exact ih

/-- C5 amended: the classification scan visits the table in registration order
and alerts on every profile whose signature equals the sample signature and
whose upper limit is at most the sample amount; when several profiles match,
all of them take effect, and the first alert is the profile the first-match
rule would select. -/
theorem C5_scan_alerts_every_match (s : Sample) :
    (analyze_sample s).head? = (classify_spec s).map Profile.name ∧
    ∀ n, n ∈ analyze_sample s ↔
      ∃ p ∈ substance_spectrum,
        p.spectrum = s.spectrum ∧ p.upper_limit ≤ s.amount ∧ p.name = n := by
  constructor
  · exact head_filter_map_eq_find (sample_matches s) substance_spectrum
  · intro n
    unfold analyze_sample
    simp only [List.mem_map, List.mem_filter, sample_matches, Bool.and_eq_true,
      beq_iff_eq, decide_eq_true_eq]
    constructor
    · rintro ⟨p, ⟨hp, hspec, hle⟩, hn⟩
      exact ⟨p, hp, hspec.symm, hle, hn⟩
    · rintro ⟨p, hp, hspec, hle, hn⟩
      exact ⟨p, ⟨hp, hspec.symm, hle⟩, hn⟩

/-- C5 amended witness: on the duplicate-signature sample both facts of the
amended claim are concrete. -/
theorem C5_scan_alerts_every_match_witness :
    (analyze_sample ⟨(19, 18, 45), 2⟩).head? =
      (classify_spec ⟨(19, 18, 45), 2⟩).map Profile.name ∧
    ("mercury" ∈ analyze_sample ⟨(19, 18, 45), 2⟩ ↔
      ∃ p ∈ substance_spectrum,
        p.spectrum = (19, 18, 45) ∧ p.upper_limit ≤ (2 : ℚ) ∧
          p.name = "mercury") :=
  ⟨(C5_scan_alerts_every_match ⟨(19, 18, 45), 2⟩).1,
    (C5_scan_alerts_every_match ⟨(19, 18, 45), 2⟩).2 "mercury"⟩

/-- C6: each boundary maneuver issued by `begin_new_column` is two 90-degree
turns in the one direction selected by the parity of the current column number,
bracketing a straight advance of exactly the robot width; the column number
then increments, and consecutive column numbers select opposite directions
(so the direction alternates between consecutive boundaries). -/
theorem C6_turn_alternation (width : Nat) (s : RobotState) :
    (begin_new_column width s).2 =
      [.turn (turn_dir s.col_number), .straight width,
        .turn (turn_dir s.col_number)] ∧
    (begin_new_column width s).1.col_number = s.col_number + 1 ∧
    turn_dir (s.col_number + 1) = - turn_dir s.col_number ∧
    (turn_dir s.col_number = 90 ∨ turn_dir s.col_number = -90) := by
  unfold begin_new_column turn_dir
  rcases Nat.mod_two_eq_zero_or_one s.col_number with h | h
  · have h2 : (s.col_number + 1) % 2 = 1 := by omega
    simp [h, h2]
  · have h2 : (s.col_number + 1) % 2 = 0 := by omega
    simp [h, h2]

/-- C8: a sample whose signature equals the signature of no table entry
triggers no warning, whatever its amount, and the drive cycle that classifies
it still completes normally, with no warning command in its trace. -/
theorem C8_no_false_positive (sig : Nat × Nat × Nat) (amount : ℚ)
    (h : ∀ p ∈ substance_spectrum, p.spectrum ≠ sig) :
    analyze_sample ⟨sig, amount⟩ = [] ∧
    (main 110 0 140 800 560 ⟨sig, amount⟩ [] init_state ⟨true, true⟩).result =
      .completed ∧
    (main 110 0 140 800 560 ⟨sig, amount⟩ [] init_state ⟨true, true⟩).cmds =
      [.timerReset, .drive 110 0, .stop, .lightOff, .screenClear] := by
  have hnil : analyze_sample ⟨sig, amount⟩ = [] := by
    unfold analyze_sample
    rw [List.filter_eq_nil_iff.mpr, List.map_nil]
    intro p hp
    simp only [sample_matches, Bool.and_eq_true, beq_iff_eq, decide_eq_true_eq,
      not_and]
    intro hspec
    exact absurd hspec.symm (h p hp)
  refine ⟨hnil, rfl, ?_⟩
  show Cmd.timerReset :: Cmd.drive 110 0 ::
      ([.stop, .lightOff, .screenClear] ++
        (analyze_sample ⟨sig, amount⟩).map Cmd.emitWarning) = _
  rw [hnil]
  rfl

/-- C8 witness: the signature (0,0,0) appears nowhere in the table, and a
sample carrying it at amount 100 triggers nothing. -/
theorem C8_no_false_positive_witness :
    analyze_sample ⟨(0, 0, 0), 100⟩ = [] ∧
    (main 110 0 140 800 560 ⟨(0, 0, 0), 100⟩ [] init_state ⟨true, true⟩).result =
      .completed ∧
    (main 110 0 140 800 560 ⟨(0, 0, 0), 100⟩ [] init_state ⟨true, true⟩).cmds =
      [.timerReset, .drive 110 0, .stop, .lightOff, .screenClear] :=
  C8_no_false_positive (0, 0, 0) 100 (by decide)

/-- C10: every invocation of `main` first resets the cycle timer and commands
the drivetrain to drive at the configured speed and turn rate, before the done
flag or the stop signal is consulted; and when `is_done` is already true at
entry, motion still starts and ceases exactly at the first poll of the loop,
which aborts the cycle with no further command. -/
theorem C10_drive_starts_before_checks (drive_speed turn_rate : Int)
    (width surface_height surface_width : Nat) (sample : Sample)
    (ticks : List TickInput) (s : RobotState) (g : Globals) :
    (main drive_speed turn_rate width surface_height surface_width sample ticks
        s g).cmds.take 2 = [.timerReset, .drive drive_speed turn_rate] ∧
    (s.is_done = true → ∀ t rest, ticks = t :: rest →
      main drive_speed turn_rate width surface_height surface_width sample ticks
          s g =
        ⟨s, g, [.timerReset, .drive drive_speed turn_rate, .stop],
          .aborted⟩) := by
  constructor
  · rfl
  · intro hd t rest ht
    subst ht
    obtain ⟨c, x, y, d⟩ := s
    have hd2 : d = true := hd
    subst hd2
    have hloop : main_loop width surface_height surface_width sample
        (t :: rest) ⟨c, x, y, true⟩ g =
          ⟨⟨c, x, y, true⟩, g, [.stop], .aborted⟩ := by
      rcases Bool.eq_false_or_eq_true (t.ts_pressed && !g.is_on) with hb | hb <;>
        simp [main_loop, is_ts_pressed, hb]
    simp [main, hloop]

/-- C10 witness: with the done flag already set at entry, a cycle run on one
available tick starts driving and then stops at the first poll. -/
theorem C10_drive_starts_before_checks_witness :
    (main 110 0 140 800 560 ⟨(0, 0, 0), 0⟩ [⟨false, 0⟩] ⟨1, 0, 0, true⟩
        ⟨true, true⟩).cmds.take 2 = [.timerReset, .drive 110 0] ∧
    main 110 0 140 800 560 ⟨(0, 0, 0), 0⟩ [⟨false, 0⟩] ⟨1, 0, 0, true⟩
        ⟨true, true⟩ =
      ⟨⟨1, 0, 0, true⟩, ⟨true, true⟩, [.timerReset, .drive 110 0, .stop],
        .aborted⟩ :=
  ⟨(C10_drive_starts_before_checks 110 0 140 800 560 ⟨(0, 0, 0), 0⟩
      [⟨false, 0⟩] ⟨1, 0, 0, true⟩ ⟨true, true⟩).1,
    (C10_drive_starts_before_checks 110 0 140 800 560 ⟨(0, 0, 0), 0⟩
      [⟨false, 0⟩] ⟨1, 0, 0, true⟩ ⟨true, true⟩).2 rfl ⟨false, 0⟩ [] rfl⟩

/-- Unfolding of one boundary event on an explicit state: add the robot width
to `pos_x`; finish when the new `pos_x` reaches the surface width or the
column number equals `surface_width / width`, otherwise move to the next
column. -/
theorem boundary_step_eq (width surface_height surface_width c x y : Nat)
    (d : Bool) :
    boundary_step width surface_height surface_width ⟨c, x, y, d⟩ =
      if surface_width ≤ x + width ∨ c = surface_width / width then
        ⟨c, x + width, surface_height, true⟩
      else ⟨c + 1, x + width, 0, d⟩ := by
  show (check_column_status width surface_height surface_width
      ⟨c, x, surface_height, d⟩ ⟨true, true⟩).1 = _
  unfold check_column_status begin_new_column
  rw [if_pos (Or.inl rfl)]
  by_cases hf : surface_width ≤ x + width ∨ c = surface_width / width
  · rw [if_pos hf, if_pos hf]
  · rw [if_neg hf, if_neg hf]
    by_cases hc : c % 2 = 0
    · rw [if_pos hc]
    · rw [if_neg hc]

/-- One more boundary event is one more application of `boundary_step`. -/
theorem coverage_run_succ (width surface_height surface_width k : Nat) :
    coverage_run width surface_height surface_width (k + 1) =
      boundary_step width surface_height surface_width
        (coverage_run width surface_height surface_width k) :=
  Function.iterate_succ_apply' _ _ _

/-- Before the finishing boundary event (the `max (surface_width / width) 1`-th
one), the machine is still scanning: after `k` events the column number is
`k + 1`, the lateral position is `k * width` and the done flag is unset. -/
theorem coverage_run_scanning (width surface_height surface_width : Nat)
    (hw : 0 < width) :
    ∀ k, k < max (surface_width / width) 1 →
      coverage_run width surface_height surface_width k =
        (⟨k + 1, k * width, 0, false⟩ : RobotState) := by
  intro k
  induction k with
  | zero =>
    intro _
    simp [coverage_run, init_state]
  | succ k ih =>
    intro hk
    have hk0 : k < max (surface_width / width) 1 := Nat.lt_of_succ_lt hk
    have hf2 : k + 1 < surface_width / width := by omega
    have hneg : ¬ (surface_width ≤ k * width + width ∨
        k + 1 = surface_width / width) := by
      push_neg
      refine ⟨?_, by omega⟩
      have h1 : (k + 1) * width < (surface_width / width) * width :=
        mul_lt_mul_of_pos_right hf2 hw
      have h2 : (surface_width / width) * width ≤ surface_width :=
        Nat.div_mul_le_self _ _
      have h3 : (k + 1) * width = k * width + width := Nat.succ_mul _ _
      omega
    rw [coverage_run_succ, ih hk0, boundary_step_eq, if_neg hneg, Nat.succ_mul]

/-- From the `max (surface_width / width) 1`-th boundary event on, the done
flag is set and the column number stays at `max (surface_width / width) 1`
forever (later boundary events only keep adding to the lateral position). -/
theorem coverage_run_finished (width surface_height surface_width : Nat)
    (hw : 0 < width) :
    ∀ j, coverage_run width surface_height surface_width
        (max (surface_width / width) 1 + j) =
      (⟨max (surface_width / width) 1,
        (max (surface_width / width) 1 + j) * width, surface_height, true⟩ :
          RobotState) := by
  have hdm := Nat.div_add_mod surface_width width
  have hmod := Nat.mod_lt surface_width hw
  intro j
  induction j with
  | zero =>
    obtain ⟨K0, hK0⟩ : ∃ K0, max (surface_width / width) 1 = K0 + 1 :=
      ⟨max (surface_width / width) 1 - 1, by omega⟩
    rw [Nat.add_zero, hK0, coverage_run_succ,
      coverage_run_scanning width surface_height surface_width hw K0 (by omega),
      boundary_step_eq]
    have hpos : surface_width ≤ K0 * width + width ∨
        K0 + 1 = surface_width / width := by
      rcases Nat.eq_zero_or_pos (surface_width / width) with h0 | h0
      · left
        have hK00 : K0 = 0 := by omega
        subst hK00
        rw [h0] at hdm
        omega
      · right
        omega
    rw [if_pos hpos, Nat.succ_mul]
  | succ j ih =>
    have hstep : max (surface_width / width) 1 + (j + 1) =
        (max (surface_width / width) 1 + j) + 1 := rfl
    rw [hstep, coverage_run_succ, ih, boundary_step_eq]
    have hpos : surface_width ≤
        (max (surface_width / width) 1 + j) * width + width ∨
        max (surface_width / width) 1 = surface_width / width := by
      rcases Nat.eq_zero_or_pos (surface_width / width) with h0 | h0
      · left
        have h2 : width ≤ (max (surface_width / width) 1 + j) * width + width :=
          Nat.le_add_left _ _
        rw [h0] at hdm
        omega
      · right
        omega
    rw [if_pos hpos]
    have hmul : (max (surface_width / width) 1 + j + 1) * width =
        (max (surface_width / width) 1 + j) * width + width := by ring
    rw [hmul]

/-- C4: for every surface width and every positive robot width, the coverage
state machine is finished — the done flag is true — within
`ceil (surface_width / width)` column transitions: after
`ceil (surface_width / width) + 1` boundary events the done flag is set, and
the number of column transitions performed, which is the final column number
minus one, is at most `ceil (surface_width / width)` (written as
`(surface_width + width - 1) / width` on naturals). -/
theorem C4_termination_bound (surface_height surface_width width : Nat)
    (hw : 0 < width) :
    (coverage_run width surface_height surface_width
        ((surface_width + width - 1) / width + 1)).is_done = true ∧
    (coverage_run width surface_height surface_width
        ((surface_width + width - 1) / width + 1)).col_number - 1 ≤
      (surface_width + width - 1) / width := by
  have hfm : surface_width / width ≤ (surface_width + width - 1) / width :=
    Nat.div_le_div_right (by omega)
  have hK : max (surface_width / width) 1 ≤
      (surface_width + width - 1) / width + 1 := by
    rcases Nat.eq_zero_or_pos (surface_width / width) with h0 | h0
    · rw [h0, Nat.max_eq_right (Nat.zero_le 1)]
      exact Nat.le_add_left 1 _
    · rw [Nat.max_eq_left h0]
      exact Nat.le_succ_of_le hfm
  obtain ⟨j, hj⟩ : ∃ j, (surface_width + width - 1) / width + 1 =
      max (surface_width / width) 1 + j :=
    ⟨(surface_width + width - 1) / width + 1 - max (surface_width / width) 1,
      (Nat.add_sub_cancel' hK).symm⟩
  rw [hj, coverage_run_finished width surface_height surface_width hw j]
  refine ⟨rfl, ?_⟩
  show max (surface_width / width) 1 - 1 ≤ _
  exact Nat.sub_le_iff_le_add.mpr hK

/-- C4 witness: with robot width 140 on a 560-wide surface the bound is 4, and
after 5 boundary events the machine is done having performed at most 4 column
transitions. -/
theorem C4_termination_bound_witness :
    (coverage_run 140 800 560 ((560 + 140 - 1) / 140 + 1)).is_done = true ∧
    (coverage_run 140 800 560 ((560 + 140 - 1) / 140 + 1)).col_number - 1 ≤
      (560 + 140 - 1) / 140 :=
  C4_termination_bound 800 560 140 (by decide)

end WaterRobot

